import Mathlib

/-!
Verification development for the H-R diagram generator
(`src/HR_Diagram_Maker.py`).  The script is embedded shallowly:

* a pandas `DataFrame` becomes a structure holding the five base columns
  as a list of `StarRecord` rows plus three optional derived columns;
* real-valued data is modelled with `ℚ` (the script only multiplies,
  adds and compares, so rationals are exact);
* a dictionary lookup that can raise `KeyError` becomes an
  `Option`-valued function, and `Series.map` over a column becomes
  `mapOpt`, which fails as soon as one element fails;
* the in-place mutation of the caller's DataFrame performed by
  `map_star_types` is made explicit: the embedded function returns the
  result of the call, the caller-visible state of the table afterwards,
  and the list of lines printed during the call;
* the matplotlib calls are embedded as updates on an `AxisState`
  record (scale, limits, ticks, tick labels, minor-tick subdivisions),
  and `plot_hr_diagram` composes them into a `Figure` that also records
  the scatter layers and the legend.
-/

namespace HRDiagram

/-- One row of the star dataset: the five required columns.
`Star type` is an integer code, `Spectral Class` a string. -/
structure StarRecord where
  temperature : ℚ
  luminosity : ℚ
  absMagnitude : ℚ
  starType : ℤ
  spectralClass : String
deriving DecidableEq, Repr

/-- A pandas DataFrame as used by the script: the set of column names,
the base rows, and the three derived columns that `map_star_types`
assigns (absent until assigned). -/
structure DataFrame where
  columns : List String
  rows : List StarRecord
  labelCol : Option (List String) := none
  sizeCol : Option (List ℕ) := none
  colorCol : Option (List String) := none
deriving DecidableEq, Repr

/-- `required_columns` of `load_data`. -/
def requiredColumns : List String :=
  ["Temperature (K)", "Luminosity(L/Lo)", "Absolute magnitude(Mv)",
   "Star type", "Spectral Class"]

/-- The error message raised by `load_data` when a required column is
missing. -/
def missingColumnsMessage : String :=
  "Dataset must contain required columns: Temperature (K), Luminosity(L/Lo), Absolute magnitude(Mv), Star type, Spectral Class"

/-- `load_data`: the file read is modelled by an `Except` value (the
read may itself fail with an exception message).  The function returns
the result visible to the caller together with the lines printed.
Any exception is caught and printed; the function then returns `none`. -/
def load_data (readResult : Except String DataFrame) :
    Option DataFrame × List String :=
  match readResult with
  | .error e => (none, ["Error loading data: " ++ e])
  | .ok df =>
    if requiredColumns.all (fun col => df.columns.contains col) then
      (some df, [])
    else
      (none, ["Error loading data: " ++ missingColumnsMessage])

/-- `star_type_map`: the static dictionary of `map_star_types`,
keyed by the star-type code; a key outside `{0..5}` is absent
(`KeyError`, modelled by `none`). -/
def star_type_map (x : ℤ) : Option (String × ℕ × String) :=
  if x = 0 then some ("Red Dwarf", 30, "red")
  else if x = 1 then some ("Brown Dwarf", 20, "maroon")
  else if x = 2 then some ("White Dwarf", 25, "green")
  else if x = 3 then some ("Main Sequence", 50, "blue")
  else if x = 4 then some ("Giant", 80, "orange")
  else if x = 5 then some ("Supergiant", 100, "purple")
  else none

/-- The keys of `star_type_map`: the valid star-type codes. -/
def starTypeCodes : List ℤ := [0, 1, 2, 3, 4, 5]

/-- `Series.map` with a lambda that can raise: evaluates the function
left to right and fails at the first element on which it raises. -/
def mapOpt (f : α → Option β) : List α → Option (List β)
  | [] => some []
  | a :: l =>
    match f a with
    | none => none
    | some b =>
      match mapOpt f l with
      | none => none
      | some bs => some (b :: bs)

/-- `map_star_types`: assigns the three derived columns one after the
other, each by mapping the `Star type` column through a lookup in
`star_type_map`.  Returns `(result, table, printed)` where `result` is
`none` when the lookup raised (the exception propagates to the caller),
`table` is the caller-visible state of the DataFrame after the call —
the assignments already executed persist even when a later one raises —
and `printed` is the output produced (the function prints nothing). -/
def map_star_types (df : DataFrame) :
    Option DataFrame × DataFrame × List String :=
  match mapOpt (fun x => (star_type_map x).map (fun t => t.1))
      (df.rows.map (fun r => r.starType)) with
  | none => (none, df, [])
  | some ls =>
    let df1 := { df with labelCol := some ls }
    match mapOpt (fun x => (star_type_map x).map (fun t => t.2.1))
        (df1.rows.map (fun r => r.starType)) with
    | none => (none, df1, [])
    | some ss =>
      let df2 := { df1 with sizeCol := some ss }
      match mapOpt (fun x => (star_type_map x).map (fun t => t.2.2))
          (df2.rows.map (fun r => r.starType)) with
      | none => (none, df2, [])
      | some cs =>
        let df3 := { df2 with colorCol := some cs }
        (some df3, df3, [])

/-- An axis scale, as set by `set_xscale` / `set_yscale`. -/
inductive Scale where
  | linear
  | log
deriving DecidableEq, Repr

/-- The state of one matplotlib axes object as far as the script is
concerned: scales, limits (stored as `(left, right)` and
`(bottom, top)`, so a descending pair means an inverted axis), major
ticks, explicit tick labels, the `subs` of an installed log minor-tick
locator, and the axis labels. -/
structure AxisState where
  xscale : Scale := .linear
  yscale : Scale := .linear
  xlim : ℚ × ℚ := (0, 1)
  ylim : ℚ × ℚ := (0, 1)
  xticks : List ℚ := []
  xticklabels : Option (List String) := none
  yticks : List ℚ := []
  yticklabels : Option (List String) := none
  xMinorSubs : List ℕ := []
  yMinorSubs : List ℕ := []
  xlabel : String := ""
  ylabel : String := ""
deriving DecidableEq, Repr

/-- `ax.set_xlim(a, b)` stores `(a, b)` as `(left, right)`. -/
def set_xlim (a : AxisState) (p : ℚ × ℚ) : AxisState := { a with xlim := p }

/-- `ax.set_ylim(a, b)` stores `(a, b)` as `(bottom, top)`. -/
def set_ylim (a : AxisState) (p : ℚ × ℚ) : AxisState := { a with ylim := p }

/-- `ax.invert_xaxis()` swaps the current x limits. -/
def invert_xaxis (a : AxisState) : AxisState :=
  { a with xlim := (a.xlim.2, a.xlim.1) }

/-- `ax.invert_yaxis()` swaps the current y limits. -/
def invert_yaxis (a : AxisState) : AxisState :=
  { a with ylim := (a.ylim.2, a.ylim.1) }

/-- `np.arange(a, b)` for naturals: `[a, a+1, ..., b-1]`. -/
def arange (a b : ℕ) : List ℕ := (List.range (b - a)).map (fun k => k + a)

/-- The `spectral_classes` list of `create_spectral_class_axis`. -/
def spectral_classes : List String := ["O", "B", "A", "F", "G", "K", "M"]

/-- The `temp_bounds` list of `create_spectral_class_axis` (Kelvin). -/
def temp_bounds : List ℚ := [40000, 30000, 10000, 7500, 6000, 3700, 2000]

/-- `create_spectral_class_axis(ax, temp_range)`: the secondary top
x-axis.  `twiny()` yields a fresh axes sharing the y-axis; only the
operations the script performs on it are recorded. -/
def create_spectral_class_axis (temp_range : ℚ × ℚ) : AxisState :=
  let ax2 : AxisState := {}
  let ax2 := { ax2 with xscale := .log }
  let ax2 := set_xlim ax2 temp_range
  let ax2 := { ax2 with xticks := temp_bounds }
  let ax2 := { ax2 with xticklabels := some spectral_classes }
  let ax2 := { ax2 with xlabel := "Spectral Class" }
  invert_xaxis ax2

/-- `l_ticks`: powers of ten from `10^-6` to `10^6`. -/
def l_ticks : List ℚ :=
  (List.range 13).map (fun i : ℕ => (10 : ℚ) ^ ((i : ℤ) - 6))

/-- One luminosity tick label, `$10^{i}$` rendered as an exponent. -/
def lumLabel (i : ℤ) : String := "$10^\x7b" ++ toString i ++ "\x7d$"

/-- `l_labels`: LaTeX-style exponent labels for the luminosity ticks. -/
def l_labels : List String :=
  (List.range 13).map (fun i : ℕ => lumLabel ((i : ℤ) - 6))

/-- `create_luminosity_axis(ax, mv_range)`: the secondary right y-axis.
The `mv_range` argument is accepted but never used by the body. -/
def create_luminosity_axis (mv_range : ℚ × ℚ) : AxisState :=
  let ax3 : AxisState := {}
  let l_min : ℚ := 1 / 1000000
  let l_max : ℚ := 1000000
  let ax3 := { ax3 with yscale := .log }
  let ax3 := set_ylim ax3 (l_min, l_max)
  let ax3 := { ax3 with yticks := l_ticks }
  let ax3 := { ax3 with yticklabels := some l_labels }
  let ax3 := { ax3 with yMinorSubs := arange 1 10 }
  { ax3 with ylabel := "Luminosity (L/Lo)" }

/-- The tick values generated by a log-scale minor locator with
subdivision list `subs` over the fixed luminosity view interval
`[1e-6, 1e6]`: `m * 10^d` for each decade exponent `d ∈ {-6, ..., 5}`
and each `m` in `subs`. -/
def minorTickValues (subs : List ℕ) : List ℚ :=
  ((List.range 12).map (fun k : ℕ => (k : ℤ) - 6)).flatMap
    (fun d => subs.map (fun m : ℕ => (m : ℚ) * 10 ^ d))

/-- The descriptor triple of a valid code (the default is never reached
on codes in `starTypeCodes`). -/
def descOf (c : ℤ) : String × ℕ × String := (star_type_map c).getD ("", 0, "")

/-- One `ax.scatter(...)` call issued by the renderer. -/
structure ScatterLayer where
  xs : List ℚ
  ys : List ℚ
  color : String
  size : ℕ
  label : String
  alpha : ℚ
  edgecolors : String
  linewidth : ℚ
deriving DecidableEq, Repr

/-- A row of the enriched DataFrame: the base record together with the
values of the three derived columns on that row. -/
structure ERow where
  base : StarRecord
  label : String
  msize : ℕ
  color : String
deriving DecidableEq, Repr

/-- Align the base rows with the three derived columns row by row. -/
def zipE : List StarRecord → List String → List ℕ → List String → List ERow
  | r :: rs, l :: ls, s :: ss, c :: cs => ⟨r, l, s, c⟩ :: zipE rs ls ss cs
  | _, _, _, _ => []

/-- Worker for `uniqueFirst`: keeps the values already seen. -/
def uniqueAux [DecidableEq α] (seen : List α) : List α → List α
  | [] => []
  | a :: l => if a ∈ seen then uniqueAux seen l else a :: uniqueAux (a :: seen) l

/-- `Series.unique()`: the distinct values in order of first
appearance. -/
def uniqueFirst [DecidableEq α] (l : List α) : List α := uniqueAux [] l

/-- One iteration of the scatter loop of `plot_hr_diagram`: filter the
rows whose label is `p.1` and, when the subset is nonempty, emit a
scatter layer colored `p.2` whose marker size is the subset's first
`Marker size` value; an empty subset is skipped. -/
def layerStep (erows : List ERow) (p : String × String) : Option ScatterLayer :=
  let subset := erows.filter (fun e => decide (e.label = p.1))
  match subset with
  | [] => none
  | e0 :: _ =>
    some { xs := subset.map (fun e => e.base.temperature)
           ys := subset.map (fun e => e.base.absMagnitude)
           color := p.2
           size := e0.msize
           label := p.1
           alpha := 7 / 10
           edgecolors := "black"
           linewidth := 1 / 2 }

/-- The scatter loop of `plot_hr_diagram`: one `layerStep` for each
pair drawn from
`zip(df['Star type label'].unique(), df['Color'].unique())`. -/
def buildLayers (erows : List ERow) : List ScatterLayer :=
  (List.zip (uniqueFirst (erows.map (fun e => e.label)))
            (uniqueFirst (erows.map (fun e => e.color)))).filterMap
    (layerStep erows)

/-- The enriched table produced by a successful classification: the
three derived columns hold the descriptor fields of each row's code. -/
def enrich (df : DataFrame) : DataFrame :=
  { df with
    labelCol := some (df.rows.map (fun r => (descOf r.starType).1)),
    sizeCol := some (df.rows.map (fun r => (descOf r.starType).2.1)),
    colorCol := some (df.rows.map (fun r => (descOf r.starType).2.2)) }

/-- One enriched row, as produced by a successful classification. -/
def enrichRow (r : StarRecord) : ERow :=
  ⟨r, (descOf r.starType).1, (descOf r.starType).2.1, (descOf r.starType).2.2⟩

/-- The scatter layer the renderer emits for the star-type code `c`:
the rows of that code, drawn with the descriptor's color and size. -/
def layerFor (rows : List StarRecord) (c : ℤ) : ScatterLayer :=
  { xs := (rows.filter (fun r => decide (r.starType = c))).map
      (fun r => r.temperature)
    ys := (rows.filter (fun r => decide (r.starType = c))).map
      (fun r => r.absMagnitude)
    color := (descOf c).2.2
    size := (descOf c).2.1
    label := (descOf c).1
    alpha := 7 / 10
    edgecolors := "black"
    linewidth := 1 / 2 }

/-- `Series.min()` on a column (only ever applied to nonempty data by
the claims; on an empty column the value is immaterial). -/
def seriesMin : List ℚ → ℚ
  | [] => 0
  | a :: l => l.foldl min a

/-- `Series.max()` on a column. -/
def seriesMax : List ℚ → ℚ
  | [] => 0
  | a :: l => l.foldl max a

/-- The `major_ticks` list of `plot_hr_diagram` (Kelvin). -/
def major_ticks : List ℚ := [40000, 30000, 20000, 10000, 7500, 6000, 5000, 3000]

/-- The composed output of `plot_hr_diagram`: the primary axes, the
scatter layers in draw order, the legend, and the two secondary axes. -/
structure Figure where
  ax : AxisState
  layers : List ScatterLayer
  legendTitle : String
  legendEntries : List String
  ax2 : AxisState
  ax3 : AxisState
deriving DecidableEq, Repr

/-- `plot_hr_diagram(df)`: accessing a derived column that was never
assigned raises `KeyError`, modelled by `none`; otherwise the figure is
composed exactly as in the source, statement by statement. -/
def plot_hr_diagram (df : DataFrame) : Option Figure :=
  match df.labelCol, df.sizeCol, df.colorCol with
  | some ls, some ss, some cs =>
    let erows := zipE df.rows ls ss cs
    let layers := buildLayers erows
    let ax : AxisState := {}
    let ax := { ax with xscale := .log }
    let ax := invert_xaxis ax
    let ax := invert_yaxis ax
    let ax := { ax with xlabel := "Temperature (K)",
                        ylabel := "Absolute Magnitude (Mv)" }
    let temp_min := seriesMin (df.rows.map (fun r => r.temperature)) * (9 / 10)
    let temp_max := seriesMax (df.rows.map (fun r => r.temperature)) * (11 / 10)
    let ax := set_xlim ax (temp_max, temp_min)
    let mv_min := seriesMin (df.rows.map (fun r => r.absMagnitude)) - 1
    let mv_max := seriesMax (df.rows.map (fun r => r.absMagnitude)) + 1
    let ax := set_ylim ax (mv_max, mv_min)
    let ax := { ax with xticks := major_ticks }
    let ax := { ax with xMinorSubs := arange 2 10 }
    some { ax := ax
           layers := layers
           legendTitle := "Stellar Classification"
           legendEntries := layers.map (fun layer => layer.label)
           ax2 := create_spectral_class_axis (temp_min, temp_max)
           ax3 := create_luminosity_axis (mv_min, mv_max) }
  | _, _, _ => none

/-- The outcome of one run of `main`. -/
structure MainResult where
  printed : List String
  classifierInvoked : Bool
  rendererInvoked : Bool
  figure : Option Figure
  crashed : Bool
deriving DecidableEq, Repr

/-- `main()`: load, short-circuit on a `None` result, classify, render.
An exception escaping `map_star_types` or `plot_hr_diagram` crashes the
run. -/
def main (readResult : Except String DataFrame) : MainResult :=
  match load_data readResult with
  | (none, msgs) =>
    { printed := msgs, classifierInvoked := false, rendererInvoked := false,
      figure := none, crashed := false }
  | (some df, msgs) =>
    match map_star_types df with
    | (none, _, printed2) =>
      { printed := msgs ++ printed2, classifierInvoked := true,
        rendererInvoked := false, figure := none, crashed := true }
    | (some df2, _, printed2) =>
      match plot_hr_diagram df2 with
      | none =>
        { printed := msgs ++ printed2, classifierInvoked := true,
          rendererInvoked := true, figure := none, crashed := true }
      | some fig =>
        { printed := msgs ++ printed2, classifierInvoked := true,
          rendererInvoked := true, figure := some fig, crashed := false }

/-- Extract the figure from a successful render (the fallback is never
used when rendering succeeds). -/
def figOf (df : DataFrame) : Figure :=
  (plot_hr_diagram df).getD
    { ax := {}, layers := [], legendTitle := "", legendEntries := [],
      ax2 := {}, ax3 := {} }

/-- A sample dataset with one row of each of the six star-type codes. -/
def sampleRows6 : List StarRecord :=
  [⟨3000, 1, 15, 0, "M"⟩, ⟨2800, 1, 17, 1, "M"⟩,
   ⟨10000, 1, 12, 2, "A"⟩, ⟨6000, 1, 5, 3, "G"⟩,
   ⟨5000, 100, 0, 4, "K"⟩, ⟨40000, 100000, -10, 5, "O"⟩]

/-- A well-formed loaded DataFrame over `sampleRows6`. -/
def sampleDF : DataFrame := { columns := requiredColumns, rows := sampleRows6 }

/-- A DataFrame whose second row carries the unrecognized code `7`. -/
def sampleBadDF : DataFrame :=
  { columns := requiredColumns,
    rows := [⟨3000, 1, 15, 0, "M"⟩, ⟨5000, 1, 5, 7, "G"⟩] }

/-- A DataFrame missing three of the required columns. -/
def sampleMissingDF : DataFrame :=
  { columns := ["Temperature (K)", "Star type"], rows := [] }

/-- `sampleDF` after classification (the caller-visible table). -/
def sampleEnrichedDF : DataFrame := (map_star_types sampleDF).2.1

/-! ### Helper lemmas about the embedded primitives -/

lemma foldl_min_le_init (a : ℚ) (l : List ℚ) : l.foldl min a ≤ a := by
  induction l generalizing a with
  | nil => simp
  | cons b t ih => exact le_trans (ih (min a b)) (min_le_left a b)

lemma foldl_min_le_mem (x : ℚ) (l : List ℚ) (hx : x ∈ l) :
    ∀ a, l.foldl min a ≤ x := by
  induction l with
  | nil => cases hx
  | cons b t ih =>
    intro a
    rw [List.foldl_cons]
    rcases List.mem_cons.mp hx with rfl | hx'
    · exact le_trans (foldl_min_le_init (min a x) t) (min_le_right a x)
    · exact ih hx' (min a b)

lemma foldl_min_mem (l : List ℚ) :
    ∀ a, l.foldl min a = a ∨ l.foldl min a ∈ l := by
  induction l with
  | nil => intro a; left; rfl
  | cons b t ih =>
    intro a
    rw [List.foldl_cons]
    rcases ih (min a b) with h | h
    · rw [h]
      rcases min_choice a b with h2 | h2
      · left; exact h2
      · right; rw [h2]; exact List.mem_cons_self b t
    · right; exact List.mem_cons_of_mem b h

lemma init_le_foldl_max (a : ℚ) (l : List ℚ) : a ≤ l.foldl max a := by
  induction l generalizing a with
  | nil => simp
  | cons b t ih => exact le_trans (le_max_left a b) (ih (max a b))

lemma mem_le_foldl_max (x : ℚ) (l : List ℚ) (hx : x ∈ l) :
    ∀ a, x ≤ l.foldl max a := by
  induction l with
  | nil => cases hx
  | cons b t ih =>
    intro a
    rw [List.foldl_cons]
    rcases List.mem_cons.mp hx with rfl | hx'
    · exact le_trans (le_max_right a x) (init_le_foldl_max (max a x) t)
    · exact ih hx' (max a b)

lemma foldl_max_mem (l : List ℚ) :
    ∀ a, l.foldl max a = a ∨ l.foldl max a ∈ l := by
  induction l with
  | nil => intro a; left; rfl
  | cons b t ih =>
    intro a
    rw [List.foldl_cons]
    rcases ih (max a b) with h | h
    · rw [h]
      rcases max_choice a b with h2 | h2
      · left; exact h2
      · right; rw [h2]; exact List.mem_cons_self b t
    · right; exact List.mem_cons_of_mem b h

lemma seriesMin_mem (l : List ℚ) (h : l ≠ []) : seriesMin l ∈ l := by
  cases l with
  | nil => exact absurd rfl h
  | cons a t =>
    show t.foldl min a ∈ a :: t
    rcases foldl_min_mem t a with h2 | h2
    · rw [h2]; exact List.mem_cons_self a t
    · exact List.mem_cons_of_mem a h2

lemma seriesMin_le (l : List ℚ) (x : ℚ) (hx : x ∈ l) : seriesMin l ≤ x := by
  cases l with
  | nil => cases hx
  | cons a t =>
    show t.foldl min a ≤ x
    rcases List.mem_cons.mp hx with rfl | hx'
    · exact foldl_min_le_init x t
    · exact foldl_min_le_mem x t hx' a

lemma seriesMax_mem (l : List ℚ) (h : l ≠ []) : seriesMax l ∈ l := by
  cases l with
  | nil => exact absurd rfl h
  | cons a t =>
    show t.foldl max a ∈ a :: t
    rcases foldl_max_mem t a with h2 | h2
    · rw [h2]; exact List.mem_cons_self a t
    · exact List.mem_cons_of_mem a h2

lemma le_seriesMax (l : List ℚ) (x : ℚ) (hx : x ∈ l) : x ≤ seriesMax l := by
  cases l with
  | nil => cases hx
  | cons a t =>
    show x ≤ t.foldl max a
    rcases List.mem_cons.mp hx with rfl | hx'
    · exact init_le_foldl_max x t
    · exact mem_le_foldl_max x t hx' a

lemma seriesMin_le_seriesMax (l : List ℚ) (h : l ≠ []) :
    seriesMin l ≤ seriesMax l :=
  le_seriesMax l (seriesMin l) (seriesMin_mem l h)

lemma seriesMin_pos (l : List ℚ) (h : l ≠ []) (hp : ∀ x ∈ l, 0 < x) :
    0 < seriesMin l :=
  hp (seriesMin l) (seriesMin_mem l h)

lemma mapOpt_eq_map {α β : Type} (F : α → Option β) (f : α → β) (l : List α)
    (h : ∀ a ∈ l, F a = some (f a)) : mapOpt F l = some (l.map f) := by
  induction l with
  | nil => rfl
  | cons a t ih =>
    simp only [mapOpt, h a (List.mem_cons_self a t),
      ih (fun b hb => h b (List.mem_cons_of_mem a hb)), List.map_cons]

lemma mapOpt_eq_none {α β : Type} {F : α → Option β} {l : List α} (a : α)
    (ha : a ∈ l) (hFa : F a = none) : mapOpt F l = none := by
  induction l with
  | nil => cases ha
  | cons b t ih =>
    rcases List.mem_cons.mp ha with rfl | ha'
    · simp [mapOpt, hFa]
    · cases hFb : F b with
      | none => simp [mapOpt, hFb]
      | some v => simp [mapOpt, hFb, ih ha']

lemma star_type_map_eq_none {c : ℤ} (hc : c ∉ starTypeCodes) :
    star_type_map c = none := by
  simp only [starTypeCodes, List.mem_cons, List.not_mem_nil, or_false,
    not_or] at hc
  obtain ⟨h0, h1, h2, h3, h4, h5⟩ := hc
  simp [star_type_map, h0, h1, h2, h3, h4, h5]

lemma star_type_map_valid :
    ∀ c ∈ starTypeCodes, star_type_map c = some (descOf c) := by decide

lemma descOf_label_inj :
    ∀ c ∈ starTypeCodes, ∀ c' ∈ starTypeCodes,
      (descOf c).1 = (descOf c').1 → c = c' := by decide

lemma descOf_color_inj :
    ∀ c ∈ starTypeCodes, ∀ c' ∈ starTypeCodes,
      (descOf c).2.2 = (descOf c').2.2 → c = c' := by decide

lemma filterMap_congr_some {α β : Type} (l : List α) (g : α → Option β)
    (h : α → β) (H : ∀ a ∈ l, g a = some (h a)) :
    l.filterMap g = l.map h := by
  induction l with
  | nil => rfl
  | cons a t ih =>
    rw [List.filterMap_cons, H a (List.mem_cons_self a t), List.map_cons,
      ih (fun b hb => H b (List.mem_cons_of_mem a hb))]

lemma length_eq_of_nodup_mem {α : Type} [DecidableEq α] (l1 l2 : List α)
    (h1 : l1.Nodup) (h2 : l2.Nodup) (hm : ∀ x, x ∈ l1 ↔ x ∈ l2) :
    l1.length = l2.length := by
  rw [← List.toFinset_card_of_nodup h1, ← List.toFinset_card_of_nodup h2]
  congr 1
  ext x
  simp only [List.mem_toFinset]
  exact hm x

lemma mem_uniqueAux {α : Type} [DecidableEq α] (l : List α) :
    ∀ (seen : List α) (x : α),
      x ∈ uniqueAux seen l ↔ x ∈ l ∧ x ∉ seen := by
  induction l with
  | nil => intro seen x; simp [uniqueAux]
  | cons a t ih =>
    intro seen x
    by_cases ha : a ∈ seen
    · simp only [uniqueAux, if_pos ha, ih, List.mem_cons]
      constructor
      · rintro ⟨hx, hs⟩; exact ⟨Or.inr hx, hs⟩
      · rintro ⟨rfl | hx, hs⟩
        · exact absurd ha hs
        · exact ⟨hx, hs⟩
    · simp only [uniqueAux, if_neg ha, List.mem_cons, ih]
      constructor
      · rintro (rfl | ⟨hx, hs⟩)
        · exact ⟨Or.inl rfl, ha⟩
        · simp only [List.mem_cons, not_or] at hs
          exact ⟨Or.inr hx, hs.2⟩
      · rintro ⟨rfl | hx, hs⟩
        · exact Or.inl rfl
        · by_cases hxa : x = a
          · exact Or.inl hxa
          · refine Or.inr ⟨hx, ?_⟩
            simp only [List.mem_cons, not_or]
            exact ⟨hxa, hs⟩

lemma nodup_uniqueAux {α : Type} [DecidableEq α] (l : List α) :
    ∀ seen : List α, (uniqueAux seen l).Nodup := by
  induction l with
  | nil => intro seen; simp [uniqueAux]
  | cons a t ih =>
    intro seen
    by_cases ha : a ∈ seen
    · simpa [uniqueAux, if_pos ha] using ih seen
    · simp only [uniqueAux, if_neg ha, List.nodup_cons]
      refine ⟨?_, ih (a :: seen)⟩
      intro hmem
      rcases (mem_uniqueAux t (a :: seen) a).mp hmem with ⟨_, hns⟩
      exact hns (List.mem_cons_self a seen)

lemma uniqueAux_map {α β : Type} [DecidableEq α] [DecidableEq β]
    (f : α → β) (l : List α) :
    ∀ seen : List α,
      (∀ x ∈ l ++ seen, ∀ y ∈ l ++ seen, f x = f y → x = y) →
      uniqueAux (seen.map f) (l.map f) = (uniqueAux seen l).map f := by
  induction l with
  | nil => intro seen _; simp [uniqueAux]
  | cons a t ih =>
    intro seen hinj
    have hmem : f a ∈ seen.map f ↔ a ∈ seen := by
      constructor
      · intro h
        rcases List.mem_map.mp h with ⟨b, hb, hfb⟩
        have hba : b = a := by
          refine hinj b ?_ a ?_ hfb
          · simp [List.mem_append, hb]
          · simp
        exact hba ▸ hb
      · exact List.mem_map_of_mem f
    by_cases ha : a ∈ seen
    · rw [List.map_cons]
      show uniqueAux (seen.map f) (f a :: t.map f) = _
      rw [uniqueAux, if_pos (hmem.mpr ha)]
      show _ = (uniqueAux seen (a :: t)).map f
      rw [uniqueAux, if_pos ha]
      refine ih seen (fun x hx y hy h => hinj x ?_ y ?_ h)
      · simp only [List.mem_append, List.mem_cons] at hx ⊢; tauto
      · simp only [List.mem_append, List.mem_cons] at hy ⊢; tauto
    · rw [List.map_cons]
      show uniqueAux (seen.map f) (f a :: t.map f) = _
      rw [uniqueAux, if_neg (fun h => ha (hmem.mp h))]
      show _ = (uniqueAux seen (a :: t)).map f
      rw [uniqueAux, if_neg ha, List.map_cons]
      have hstep : (f a :: seen.map f) = (a :: seen).map f := rfl
      rw [hstep]
      congr 1
      refine ih (a :: seen) (fun x hx y hy h => hinj x ?_ y ?_ h)
      · simp only [List.mem_append, List.mem_cons] at hx ⊢; tauto
      · simp only [List.mem_append, List.mem_cons] at hy ⊢; tauto

lemma mem_uniqueFirst {α : Type} [DecidableEq α] (l : List α) (x : α) :
    x ∈ uniqueFirst l ↔ x ∈ l := by
  simp [uniqueFirst, mem_uniqueAux]

lemma nodup_uniqueFirst {α : Type} [DecidableEq α] (l : List α) :
    (uniqueFirst l).Nodup :=
  nodup_uniqueAux l []

lemma uniqueFirst_map {α β : Type} [DecidableEq α] [DecidableEq β]
    (f : α → β) (l : List α)
    (hinj : ∀ x ∈ l, ∀ y ∈ l, f x = f y → x = y) :
    uniqueFirst (l.map f) = (uniqueFirst l).map f := by
  have h := uniqueAux_map f l []
    (by simpa using hinj)
  simpa [uniqueFirst] using h

lemma mem_arange (a b x : ℕ) : x ∈ arange a b ↔ a ≤ x ∧ x < b := by
  simp only [arange, List.mem_map, List.mem_range]
  constructor
  · rintro ⟨k, hk, rfl⟩; omega
  · intro h; exact ⟨x - a, by omega, by omega⟩

lemma zipE_map (rs : List StarRecord) (f1 : StarRecord → String)
    (f2 : StarRecord → ℕ) (f3 : StarRecord → String) :
    zipE rs (rs.map f1) (rs.map f2) (rs.map f3)
      = rs.map (fun r => ⟨r, f1 r, f2 r, f3 r⟩) := by
  induction rs with
  | nil => rfl
  | cons r t ih => simp [zipE, ih]

lemma mapOpt_lookup {β : Type} (df : DataFrame)
    (hvalid : ∀ r ∈ df.rows, r.starType ∈ starTypeCodes)
    (g : String × ℕ × String → β) :
    mapOpt (fun x => (star_type_map x).map g)
      (df.rows.map (fun r => r.starType))
      = some (df.rows.map (fun r => g (descOf r.starType))) := by
  rw [mapOpt_eq_map (fun x => (star_type_map x).map g)
    (fun c => g (descOf c)) (df.rows.map (fun r => r.starType)) ?_]
  · rw [List.map_map]
    rfl
  · intro c hc
    rcases List.mem_map.mp hc with ⟨r, hr, rfl⟩
    show Option.map g (star_type_map r.starType) = some (g (descOf r.starType))
    rw [star_type_map_valid r.starType (hvalid r hr)]
    rfl

lemma map_star_types_success (df : DataFrame)
    (hvalid : ∀ r ∈ df.rows, r.starType ∈ starTypeCodes) :
    map_star_types df = (some (enrich df), enrich df, []) := by
  have h1 := mapOpt_lookup df hvalid (fun t => t.1)
  have h2 := mapOpt_lookup df hvalid (fun t => t.2.1)
  have h3 := mapOpt_lookup df hvalid (fun t => t.2.2)
  simp only [map_star_types, h1, h2, h3]
  rfl

lemma layerStep_valid (rows : List StarRecord)
    (hvalid : ∀ r ∈ rows, r.starType ∈ starTypeCodes) (c : ℤ)
    (hc : c ∈ starTypeCodes) (hex : ∃ r ∈ rows, r.starType = c) :
    layerStep (rows.map enrichRow) ((descOf c).1, (descOf c).2.2)
      = some (layerFor rows c) := by
  have hsubset : (rows.map enrichRow).filter
        (fun e => decide (e.label = (descOf c).1))
      = (rows.filter (fun r => decide (r.starType = c))).map enrichRow := by
    rw [List.filter_map]
    congr 1
    refine List.filter_congr ?_
    intro r hr
    have hrc : r.starType ∈ starTypeCodes := hvalid r hr
    by_cases h : r.starType = c
    · simp [enrichRow, Function.comp, h]
    · have hne : (descOf r.starType).1 ≠ (descOf c).1 :=
        fun he => h (descOf_label_inj r.starType hrc c hc he)
      simp [enrichRow, Function.comp, h, hne]
  rcases hex with ⟨r1, hr1, hr1c⟩
  have hne_fil : rows.filter (fun r => decide (r.starType = c)) ≠ [] := by
    intro hnil
    have : r1 ∈ rows.filter (fun r => decide (r.starType = c)) :=
      List.mem_filter.mpr ⟨hr1, by simp [hr1c]⟩
    rw [hnil] at this
    cases this
  rcases hfil : rows.filter (fun r => decide (r.starType = c)) with _ | ⟨r0, rest⟩
  · exact absurd hfil hne_fil
  have hr0 : r0 ∈ rows.filter (fun r => decide (r.starType = c)) := by
    rw [hfil]
    exact List.mem_cons_self r0 rest
  have hr0c : r0.starType = c := by
    have := (List.mem_filter.mp hr0).2
    simpa using this
  show (match (rows.map enrichRow).filter
        (fun e => decide (e.label = (descOf c).1)) with
    | [] => none
    | e0 :: _ =>
      some { xs := ((rows.map enrichRow).filter
                (fun e => decide (e.label = (descOf c).1))).map
              (fun e => e.base.temperature)
             ys := ((rows.map enrichRow).filter
                (fun e => decide (e.label = (descOf c).1))).map
              (fun e => e.base.absMagnitude)
             color := (descOf c).2.2
             size := e0.msize
             label := (descOf c).1
             alpha := 7 / 10
             edgecolors := "black"
             linewidth := 1 / 2 }) = some (layerFor rows c)
  rw [hsubset, hfil]
  show some _ = some (layerFor rows c)
  congr 1
  show ({ xs := ((r0 :: rest).map enrichRow).map (fun e => e.base.temperature)
          ys := ((r0 :: rest).map enrichRow).map (fun e => e.base.absMagnitude)
          color := (descOf c).2.2
          size := (enrichRow r0).msize
          label := (descOf c).1
          alpha := 7 / 10
          edgecolors := "black"
          linewidth := 1 / 2 } : ScatterLayer) = layerFor rows c
  rw [layerFor]
  rw [hfil]
  simp only [List.map_map]
  congr 1
  · rw [enrichRow, hr0c]

lemma buildLayers_valid (rows : List StarRecord)
    (hvalid : ∀ r ∈ rows, r.starType ∈ starTypeCodes) :
    buildLayers (rows.map enrichRow)
      = (uniqueFirst (rows.map (fun r => r.starType))).map (layerFor rows) := by
  have hcodes : ∀ x ∈ rows.map (fun r => r.starType), x ∈ starTypeCodes := by
    intro x hx
    rcases List.mem_map.mp hx with ⟨r, hr, rfl⟩
    exact hvalid r hr
  have hlabels : (rows.map enrichRow).map (fun e => e.label)
      = (rows.map (fun r => r.starType)).map (fun c => (descOf c).1) := by
    simp only [List.map_map]
    rfl
  have hcolors : (rows.map enrichRow).map (fun e => e.color)
      = (rows.map (fun r => r.starType)).map (fun c => (descOf c).2.2) := by
    simp only [List.map_map]
    rfl
  have huL : uniqueFirst ((rows.map (fun r => r.starType)).map
        (fun c => (descOf c).1))
      = (uniqueFirst (rows.map (fun r => r.starType))).map
        (fun c => (descOf c).1) := by
    refine uniqueFirst_map _ _ ?_
    intro x hx y hy h
    exact descOf_label_inj x (hcodes x hx) y (hcodes y hy) h
  have huC : uniqueFirst ((rows.map (fun r => r.starType)).map
        (fun c => (descOf c).2.2))
      = (uniqueFirst (rows.map (fun r => r.starType))).map
        (fun c => (descOf c).2.2) := by
    refine uniqueFirst_map _ _ ?_
    intro x hx y hy h
    exact descOf_color_inj x (hcodes x hx) y (hcodes y hy) h
  rw [buildLayers, hlabels, hcolors, huL, huC, List.zip_map',
    List.filterMap_map]
  refine filterMap_congr_some _ _ _ ?_
  intro c hcu
  have hcmem : c ∈ rows.map (fun r => r.starType) :=
    (mem_uniqueFirst _ c).mp hcu
  have hcvalid : c ∈ starTypeCodes := hcodes c hcmem
  have hex : ∃ r ∈ rows, r.starType = c := by
    rcases List.mem_map.mp hcmem with ⟨r, hr, rfl⟩
    exact ⟨r, hr, rfl⟩
  exact layerStep_valid rows hvalid c hcvalid hex

/-- Characterization of a successful render: every field of the figure
in terms of the input table. -/
lemma plot_hr_diagram_spec (df : DataFrame) (fig : Figure)
    (hfig : plot_hr_diagram df = some fig) :
    fig.ax.xscale = Scale.log ∧
    fig.ax.xlim
      = (seriesMax (df.rows.map (fun r => r.temperature)) * (11 / 10),
         seriesMin (df.rows.map (fun r => r.temperature)) * (9 / 10)) ∧
    fig.ax.ylim
      = (seriesMax (df.rows.map (fun r => r.absMagnitude)) + 1,
         seriesMin (df.rows.map (fun r => r.absMagnitude)) - 1) ∧
    fig.ax2 = create_spectral_class_axis
        (seriesMin (df.rows.map (fun r => r.temperature)) * (9 / 10),
         seriesMax (df.rows.map (fun r => r.temperature)) * (11 / 10)) ∧
    fig.ax3 = create_luminosity_axis
        (seriesMin (df.rows.map (fun r => r.absMagnitude)) - 1,
         seriesMax (df.rows.map (fun r => r.absMagnitude)) + 1) ∧
    fig.layers = buildLayers (zipE df.rows (df.labelCol.getD [])
        (df.sizeCol.getD []) (df.colorCol.getD [])) ∧
    fig.legendEntries = fig.layers.map (fun layer => layer.label) := by
  rcases hl : df.labelCol with _ | ls <;>
    rcases hs : df.sizeCol with _ | ss <;>
      rcases hc : df.colorCol with _ | cs <;>
        simp only [plot_hr_diagram, hl, hs, hc, Option.some.injEq] at hfig <;>
          try cases hfig
  refine ⟨rfl, rfl, rfl, rfl, rfl, ?_, rfl⟩
  simp only [hl, hs, hc, Option.getD_some]

/-- The padded temperature bounds are ordered when all temperatures are
positive and the table is nonempty. -/
lemma temp_padding_lt (df : DataFrame) (hne : df.rows ≠ [])
    (hpos : ∀ r ∈ df.rows, 0 < r.temperature) :
    seriesMin (df.rows.map (fun r => r.temperature)) * (9 / 10)
      < seriesMax (df.rows.map (fun r => r.temperature)) * (11 / 10) := by
  have hne' : df.rows.map (fun r => r.temperature) ≠ [] := by
    simpa using hne
  have h1 : 0 < seriesMin (df.rows.map (fun r => r.temperature)) := by
    refine seriesMin_pos _ hne' ?_
    intro x hx
    rcases List.mem_map.mp hx with ⟨r, hr, rfl⟩
    exact hpos r hr
  have h2 := seriesMin_le_seriesMax _ hne'
  linarith

/-! ### The claims -/

/-- C1: for every star-type code in `{0..5}` the classifier's lookup
table yields exactly the fixed (label, size, color) triple, and for
every table containing any code outside `{0..5}` classification raises
a hard lookup error rather than returning a default triple. -/
theorem claim_C1 :
    (star_type_map 0 = some ("Red Dwarf", 30, "red")) ∧
    (star_type_map 1 = some ("Brown Dwarf", 20, "maroon")) ∧
    (star_type_map 2 = some ("White Dwarf", 25, "green")) ∧
    (star_type_map 3 = some ("Main Sequence", 50, "blue")) ∧
    (star_type_map 4 = some ("Giant", 80, "orange")) ∧
    (star_type_map 5 = some ("Supergiant", 100, "purple")) ∧
    (∀ c : ℤ, c ∉ starTypeCodes → star_type_map c = none) ∧
    (∀ df : DataFrame, (∃ r ∈ df.rows, r.starType ∉ starTypeCodes) →
      (map_star_types df).1 = none) := by
  refine ⟨rfl, rfl, rfl, rfl, rfl, rfl,
    fun c hc => star_type_map_eq_none hc, ?_⟩
  rintro df ⟨r, hr, hcode⟩
  have h1 : mapOpt (fun x => (star_type_map x).map (fun t => t.1))
      (df.rows.map (fun r => r.starType)) = none :=
    mapOpt_eq_none r.starType (List.mem_map_of_mem _ hr)
      (by simp [star_type_map_eq_none hcode])
  simp [map_star_types, h1]

/-- Witness for C1: an out-of-range lookup fails, and a concrete table
holding the code `7` makes classification fail. -/
theorem claim_C1_witness :
    star_type_map 9 = none ∧ (map_star_types sampleBadDF).1 = none :=
  ⟨claim_C1.2.2.2.2.2.2.1 9 (by decide),
   claim_C1.2.2.2.2.2.2.2 sampleBadDF
     ⟨⟨5000, 1, 5, 7, "G"⟩, by decide, by decide⟩⟩

/-- C2: for a nonempty dataset with observed temperature extrema
`Tmin, Tmax`, the primary temperature axis spans exactly
`[0.9*Tmin, 1.1*Tmax]` and is stored inverted (left limit above right
limit). -/
theorem claim_C2 (df : DataFrame) (fig : Figure)
    (hne : df.rows ≠ [])
    (hpos : ∀ r ∈ df.rows, 0 < r.temperature)
    (hfig : plot_hr_diagram df = some fig) :
    fig.ax.xlim
      = (seriesMax (df.rows.map (fun r => r.temperature)) * (11 / 10),
         seriesMin (df.rows.map (fun r => r.temperature)) * (9 / 10)) ∧
    fig.ax.xlim.2 < fig.ax.xlim.1 := by
  obtain ⟨-, hx, -, -, -, -, -⟩ := plot_hr_diagram_spec df fig hfig
  refine ⟨hx, ?_⟩
  rw [hx]
  exact temp_padding_lt df hne hpos

/-- Witness for C2: the six-type sample dataset, rendered after
classification. -/
theorem claim_C2_witness :
    (figOf sampleEnrichedDF).ax.xlim
      = (seriesMax (sampleEnrichedDF.rows.map (fun r => r.temperature))
           * (11 / 10),
         seriesMin (sampleEnrichedDF.rows.map (fun r => r.temperature))
           * (9 / 10)) ∧
    (figOf sampleEnrichedDF).ax.xlim.2 < (figOf sampleEnrichedDF).ax.xlim.1 :=
  claim_C2 sampleEnrichedDF (figOf sampleEnrichedDF) (by decide) (by decide)
    rfl

/-- C3: for a nonempty dataset with observed absolute-magnitude extrema
`Mmin, Mmax`, the primary magnitude axis spans exactly
`[Mmax+1, Mmin-1]`, stored inverted (bottom limit above top limit, so
brighter stars sit toward the top). -/
theorem claim_C3 (df : DataFrame) (fig : Figure)
    (hne : df.rows ≠ [])
    (hfig : plot_hr_diagram df = some fig) :
    fig.ax.ylim
      = (seriesMax (df.rows.map (fun r => r.absMagnitude)) + 1,
         seriesMin (df.rows.map (fun r => r.absMagnitude)) - 1) ∧
    fig.ax.ylim.2 < fig.ax.ylim.1 := by
  obtain ⟨-, -, hy, -, -, -, -⟩ := plot_hr_diagram_spec df fig hfig
  refine ⟨hy, ?_⟩
  rw [hy]
  have hne' : df.rows.map (fun r => r.absMagnitude) ≠ [] := by
    simpa using hne
  have h2 := seriesMin_le_seriesMax _ hne'
  simp only []
  linarith

/-- Witness for C3: the six-type sample dataset, rendered after
classification. -/
theorem claim_C3_witness :
    (figOf sampleEnrichedDF).ax.ylim
      = (seriesMax (sampleEnrichedDF.rows.map (fun r => r.absMagnitude)) + 1,
         seriesMin (sampleEnrichedDF.rows.map (fun r => r.absMagnitude)) - 1) ∧
    (figOf sampleEnrichedDF).ax.ylim.2 < (figOf sampleEnrichedDF).ax.ylim.1 :=
  claim_C3 sampleEnrichedDF (figOf sampleEnrichedDF) (by decide) rfl

/-- C6: the secondary spectral-class axis carries exactly the primary
axis's padded temperature limits, in the same inverted log-scale
orientation; since both are the same function of the observed range,
any change to the primary padded range propagates to this axis. -/
theorem claim_C6 (df : DataFrame) (fig : Figure)
    (hne : df.rows ≠ [])
    (hpos : ∀ r ∈ df.rows, 0 < r.temperature)
    (hfig : plot_hr_diagram df = some fig) :
    fig.ax2.xlim = fig.ax.xlim ∧
    fig.ax2.xlim
      = (seriesMax (df.rows.map (fun r => r.temperature)) * (11 / 10),
         seriesMin (df.rows.map (fun r => r.temperature)) * (9 / 10)) ∧
    fig.ax2.xscale = Scale.log ∧ fig.ax.xscale = Scale.log ∧
    fig.ax2.xlim.2 < fig.ax2.xlim.1 := by
  obtain ⟨hscale, hx, -, hax2, -, -, -⟩ := plot_hr_diagram_spec df fig hfig
  have hx2 : fig.ax2.xlim
      = (seriesMax (df.rows.map (fun r => r.temperature)) * (11 / 10),
         seriesMin (df.rows.map (fun r => r.temperature)) * (9 / 10)) := by
    rw [hax2]
    rfl
  have hs2 : fig.ax2.xscale = Scale.log := by
    rw [hax2]
    rfl
  refine ⟨by rw [hx, hx2], hx2, hs2, hscale, ?_⟩
  rw [hx2]
  exact temp_padding_lt df hne hpos

/-- Witness for C6: the six-type sample dataset, rendered after
classification. -/
theorem claim_C6_witness :
    (figOf sampleEnrichedDF).ax2.xlim = (figOf sampleEnrichedDF).ax.xlim ∧
    (figOf sampleEnrichedDF).ax2.xlim
      = (seriesMax (sampleEnrichedDF.rows.map (fun r => r.temperature))
           * (11 / 10),
         seriesMin (sampleEnrichedDF.rows.map (fun r => r.temperature))
           * (9 / 10)) ∧
    (figOf sampleEnrichedDF).ax2.xscale = Scale.log ∧
    (figOf sampleEnrichedDF).ax.xscale = Scale.log ∧
    (figOf sampleEnrichedDF).ax2.xlim.2 < (figOf sampleEnrichedDF).ax2.xlim.1 :=
  claim_C6 sampleEnrichedDF (figOf sampleEnrichedDF) (by decide) (by decide)
    rfl

/-- C4: the secondary luminosity axis always has limits `[1e-6, 1e6]`
and major ticks at the 13 powers of ten from `10^-6` to `10^6`, and is
identical across any two inputs, independent of the `mv_range`
argument. -/
theorem claim_C4 (mv_range mv_range2 : ℚ × ℚ) :
    (create_luminosity_axis mv_range).ylim = (1 / 1000000, 1000000) ∧
    (create_luminosity_axis mv_range).yticks = l_ticks ∧
    l_ticks = [1 / 1000000, 1 / 100000, 1 / 10000, 1 / 1000, 1 / 100,
      1 / 10, 1, 10, 100, 1000, 10000, 100000, 1000000] ∧
    l_ticks.length = 13 ∧
    create_luminosity_axis mv_range = create_luminosity_axis mv_range2 := by
  refine ⟨rfl, rfl, ?_, rfl, rfl⟩
  simp only [l_ticks, List.range_succ, List.range_zero, List.map_append,
    List.map_cons, List.map_nil, List.nil_append, List.cons_append]
  norm_num

/-- C5: with any required column absent, the loader prints an error
naming the required-column contract and returns `None` instead of
propagating, and `main` invokes neither the classifier nor the
renderer. -/
theorem claim_C5 (df : DataFrame)
    (hmiss : ∃ c ∈ requiredColumns, c ∉ df.columns) :
    load_data (Except.ok df)
      = (none, ["Error loading data: " ++ missingColumnsMessage]) ∧
    (main (Except.ok df)).classifierInvoked = false ∧
    (main (Except.ok df)).rendererInvoked = false ∧
    (main (Except.ok df)).printed
      = ["Error loading data: " ++ missingColumnsMessage] := by
  have hall : requiredColumns.all (fun col => df.columns.contains col)
      = false := by
    rcases hmiss with ⟨c, hc, hnc⟩
    cases hb : requiredColumns.all (fun col => df.columns.contains col) with
    | false => rfl
    | true =>
      have h2 := List.all_eq_true.mp hb c hc
      exact absurd (by simpa using h2) hnc
  have hload : load_data (Except.ok df)
      = (none, ["Error loading data: " ++ missingColumnsMessage]) := by
    show (if requiredColumns.all (fun col => df.columns.contains col) then
        ((some df : Option DataFrame), ([] : List String))
      else (none, ["Error loading data: " ++ missingColumnsMessage]))
      = (none, ["Error loading data: " ++ missingColumnsMessage])
    rw [hall]
    rfl
  refine ⟨hload, ?_, ?_, ?_⟩ <;> simp only [main, hload]

/-- Witness for C5: a concrete table missing three required columns. -/
theorem claim_C5_witness :
    load_data (Except.ok sampleMissingDF)
      = (none, ["Error loading data: " ++ missingColumnsMessage]) ∧
    (main (Except.ok sampleMissingDF)).classifierInvoked = false ∧
    (main (Except.ok sampleMissingDF)).rendererInvoked = false ∧
    (main (Except.ok sampleMissingDF)).printed
      = ["Error loading data: " ++ missingColumnsMessage] :=
  claim_C5 sampleMissingDF ⟨"Luminosity(L/Lo)", by decide, by decide⟩

/-- C7: the classifier performs no I/O (it prints nothing), and the
caller-visible table after a successful call is exactly the returned
structure. -/
theorem claim_C7 (df : DataFrame) :
    (map_star_types df).2.2 = [] ∧
    (∀ v, (map_star_types df).1 = some v → (map_star_types df).2.1 = v) := by
  rcases h1 : mapOpt (fun x => (star_type_map x).map (fun t => t.1))
      (df.rows.map (fun r => r.starType)) with _ | ls
  · simp [map_star_types, h1]
  · rcases h2 : mapOpt (fun x => (star_type_map x).map (fun t => t.2.1))
        (df.rows.map (fun r => r.starType)) with _ | ss
    · simp [map_star_types, h1, h2]
    · rcases h3 : mapOpt (fun x => (star_type_map x).map (fun t => t.2.2))
          (df.rows.map (fun r => r.starType)) with _ | cs
      · simp [map_star_types, h1, h2, h3]
      · simp [map_star_types, h1, h2, h3]

/-- Witness for C7: on the six-type sample the classifier prints
nothing and the caller's table coincides with the returned value. -/
theorem claim_C7_witness :
    (map_star_types sampleDF).2.2 = [] ∧
    (map_star_types sampleDF).2.1 = sampleEnrichedDF :=
  ⟨(claim_C7 sampleDF).1,
   (claim_C7 sampleDF).2 sampleEnrichedDF rfl⟩

/-- C8: on a dataset whose rows cover all six valid star-type codes,
classification succeeds and the renderer produces exactly six scatter
layers — one per distinct label, each with the descriptor's color and
marker size — and the legend lists exactly six distinct entries drawn
from the fixed label set. -/
theorem claim_C8 (df : DataFrame)
    (hvalid : ∀ r ∈ df.rows, r.starType ∈ starTypeCodes)
    (hcover : ∀ c ∈ starTypeCodes, ∃ r ∈ df.rows, r.starType = c) :
    (map_star_types df).1 = some ((map_star_types df).2.1) ∧
    (∀ fig, plot_hr_diagram ((map_star_types df).2.1) = some fig →
      fig.layers.length = 6 ∧
      (fig.layers.map (fun layer => layer.label)).Nodup ∧
      (∀ layer ∈ fig.layers, ∃ c t, star_type_map c = some t ∧
          (∃ r ∈ df.rows, r.starType = c) ∧
          layer.label = t.1 ∧ layer.size = t.2.1 ∧ layer.color = t.2.2) ∧
      (∀ c t, star_type_map c = some t →
          ∃ layer ∈ fig.layers, layer.label = t.1) ∧
      fig.legendEntries = fig.layers.map (fun layer => layer.label) ∧
      fig.legendEntries.length = 6 ∧ fig.legendEntries.Nodup) := by
  have hsucc := map_star_types_success df hvalid
  constructor
  · rw [hsucc]
  · intro fig hfig
    rw [hsucc] at hfig
    have hfig' : plot_hr_diagram (enrich df) = some fig := hfig
    obtain ⟨-, -, -, -, -, hlayers, hlegend⟩ :=
      plot_hr_diagram_spec (enrich df) fig hfig'
    have hz : zipE (enrich df).rows ((enrich df).labelCol.getD [])
        ((enrich df).sizeCol.getD []) ((enrich df).colorCol.getD [])
        = df.rows.map enrichRow := by
      show zipE df.rows (df.rows.map (fun r => (descOf r.starType).1))
        (df.rows.map (fun r => (descOf r.starType).2.1))
        (df.rows.map (fun r => (descOf r.starType).2.2))
        = df.rows.map enrichRow
      rw [zipE_map]
      rfl
    have hbl : fig.layers
        = (uniqueFirst (df.rows.map (fun r => r.starType))).map
            (layerFor df.rows) := by
      rw [hlayers, hz, buildLayers_valid df.rows hvalid]
    have hcodes : ∀ x ∈ df.rows.map (fun r => r.starType),
        x ∈ starTypeCodes := by
      intro x hx
      rcases List.mem_map.mp hx with ⟨r, hr, rfl⟩
      exact hvalid r hr
    have hmemU : ∀ x, x ∈ uniqueFirst (df.rows.map (fun r => r.starType))
        ↔ x ∈ starTypeCodes := by
      intro x
      rw [mem_uniqueFirst]
      constructor
      · exact hcodes x
      · intro hx
        rcases hcover x hx with ⟨r, hr, hrc⟩
        exact List.mem_map.mpr ⟨r, hr, hrc⟩
    have hUnodup := nodup_uniqueFirst (df.rows.map (fun r => r.starType))
    have hlen : (uniqueFirst (df.rows.map (fun r => r.starType))).length
        = 6 := by
      rw [length_eq_of_nodup_mem _ starTypeCodes hUnodup (by decide) hmemU]
      rfl
    have hlayerlen : fig.layers.length = 6 := by
      rw [hbl, List.length_map, hlen]
    have hlabelmap : fig.layers.map (fun layer => layer.label)
        = (uniqueFirst (df.rows.map (fun r => r.starType))).map
            (fun c => (descOf c).1) := by
      rw [hbl, List.map_map]
      rfl
    have hnodup : (fig.layers.map (fun layer => layer.label)).Nodup := by
      rw [hlabelmap]
      refine List.Nodup.map_on ?_ hUnodup
      intro x hx y hy h
      exact descOf_label_inj x ((hmemU x).mp hx) y ((hmemU y).mp hy) h
    refine ⟨hlayerlen, hnodup, ?_, ?_, hlegend, ?_, ?_⟩
    · intro layer hmem
      rw [hbl] at hmem
      rcases List.mem_map.mp hmem with ⟨c, hcU, rfl⟩
      have hcmem : c ∈ df.rows.map (fun r => r.starType) :=
        (mem_uniqueFirst _ c).mp hcU
      rcases List.mem_map.mp hcmem with ⟨r, hr, hrc⟩
      exact ⟨c, descOf c, star_type_map_valid c ((hmemU c).mp hcU),
        ⟨r, hr, hrc⟩, rfl, rfl, rfl⟩
    · intro c t ht
      have hc : c ∈ starTypeCodes := by
        by_contra hcn
        rw [star_type_map_eq_none hcn] at ht
        cases ht
      have htd : t = descOf c := by
        have := star_type_map_valid c hc
        rw [ht] at this
        exact Option.some.inj this
      refine ⟨layerFor df.rows c, ?_, ?_⟩
      · rw [hbl]
        exact List.mem_map_of_mem (layerFor df.rows) ((hmemU c).mpr hc)
      · rw [htd]
        rfl
    · rw [hlegend, List.length_map, hlayerlen]
    · rw [hlegend]
      exact hnodup

/-- Witness for C8: the six-type sample dataset. -/
theorem claim_C8_witness :
    (map_star_types sampleDF).1 = some ((map_star_types sampleDF).2.1) ∧
    (figOf sampleEnrichedDF).layers.length = 6 ∧
    ((figOf sampleEnrichedDF).layers.map (fun layer => layer.label)).Nodup ∧
    (figOf sampleEnrichedDF).legendEntries
      = (figOf sampleEnrichedDF).layers.map (fun layer => layer.label) ∧
    (figOf sampleEnrichedDF).legendEntries.length = 6 := by
  have h := claim_C8 sampleDF (by decide) (by decide)
  have h2 := h.2 (figOf sampleEnrichedDF) rfl
  exact ⟨h.1, h2.1, h2.2.1, h2.2.2.2.2.1, h2.2.2.2.2.2.1⟩

/-- C9: the luminosity minor locator covers each non-decade multiple
(2–9) in every decade of the fixed range, and the major tick labels are
rendered as powers-of-ten exponents. -/
theorem claim_C9 (mv_range : ℚ × ℚ) :
    (create_luminosity_axis mv_range).yMinorSubs = arange 1 10 ∧
    (∀ m : ℕ, 2 ≤ m → m ≤ 9 → ∀ d : ℤ, -6 ≤ d → d ≤ 5 →
      (m : ℚ) * 10 ^ d
        ∈ minorTickValues (create_luminosity_axis mv_range).yMinorSubs) ∧
    (create_luminosity_axis mv_range).yticklabels = some l_labels ∧
    l_labels = ["$10^\x7b-6\x7d$", "$10^\x7b-5\x7d$", "$10^\x7b-4\x7d$",
      "$10^\x7b-3\x7d$", "$10^\x7b-2\x7d$", "$10^\x7b-1\x7d$",
      "$10^\x7b0\x7d$", "$10^\x7b1\x7d$", "$10^\x7b2\x7d$",
      "$10^\x7b3\x7d$", "$10^\x7b4\x7d$", "$10^\x7b5\x7d$",
      "$10^\x7b6\x7d$"] := by
  refine ⟨rfl, ?_, rfl, by decide⟩
  intro m hm2 hm9 d hd1 hd2
  have hn : (d + 6).toNat < 12 := by omega
  have hk : (((d + 6).toNat : ℕ) : ℤ) - 6 = d := by omega
  have hm : m ∈ arange 1 10 := (mem_arange 1 10 m).mpr ⟨by omega, by omega⟩
  have hmem : ((d + 6).toNat : ℕ) ∈ List.range 12 := List.mem_range.mpr hn
  have h2 := List.mem_map_of_mem (fun k : ℕ => (k : ℤ) - 6) hmem
  have h2' : d ∈ (List.range 12).map (fun k : ℕ => (k : ℤ) - 6) := by
    rwa [show ((fun k : ℕ => (k : ℤ) - 6) ((d + 6).toNat) = d) from hk] at h2
  have h3 := List.mem_map_of_mem (fun m : ℕ => (m : ℚ) * 10 ^ d) hm
  exact List.mem_flatMap_of_mem h2' h3

/-- Witness for C9: the multiple 2 in the lowest decade is among the
minor tick values. -/
theorem claim_C9_witness :
    (2 : ℚ) * 10 ^ (-6 : ℤ)
      ∈ minorTickValues (create_luminosity_axis (0, 1)).yMinorSubs :=
  (claim_C9 (0, 1)).2.1 2 (by decide) (by decide) (-6) (by decide) (by decide)

/-- C10: on any table with a code outside `{0..5}`, classification
fails during the first derived-column mapping: the caller's table is
returned exactly as it was, with no derived column assigned. -/
theorem claim_C10 (df : DataFrame)
    (h : ∃ r ∈ df.rows, r.starType ∉ starTypeCodes) :
    map_star_types df = (none, df, []) := by
  rcases h with ⟨r, hr, hcode⟩
  have h1 : mapOpt (fun x => (star_type_map x).map (fun t => t.1))
      (df.rows.map (fun r => r.starType)) = none :=
    mapOpt_eq_none r.starType (List.mem_map_of_mem _ hr)
      (by simp [star_type_map_eq_none hcode])
  simp [map_star_types, h1]

/-- Witness for C10: the concrete table with code `7` comes back
unchanged alongside the failure. -/
theorem claim_C10_witness :
    map_star_types sampleBadDF = (none, sampleBadDF, []) :=
  claim_C10 sampleBadDF ⟨⟨5000, 1, 5, 7, "G"⟩, by decide, by decide⟩

end HRDiagram
